import Mathlib

/-!
Shallow embedding of `extensions/diagmagic.py`, an IPython extension that
registers cell magics (`%%actdiag`, `%%blockdiag`, `%%nwdiag`, `%%seqdiag`)
rendering blockdiag-family diagram text to an image, plus two line magics
(`%setdiagsvg`, `%setdiagpng`) toggling the process-wide format flags.

The module-level mutable state of the Python file (`_draw_mode`,
`_publish_mode`, `_inkscape_available`, `_loaded`) is modelled as an explicit
record `PyGlobals` threaded through the operations.  External behaviour
(subprocess spawning, filesystem operations, the external renderer's
`command.main`) is nondeterministic from the module's point of view and is
modelled by an explicit `DiagWorld` record of outcomes; each operation also
returns the ordered trace of externally visible effects it performed.
Format flags are kept as `String`, exactly as in the source, so that the
"one of two legal values" invariant is a real statement, not a typing
artefact.
-/

namespace Diagmagic

/-- Outcome of one `subprocess.call(args, ...)`: either the child process was
spawned and terminated with some exit code, or spawning failed with an
`OSError` (typically: executable not found on the path).  `subprocess.call`
returns the exit code and never raises `CalledProcessError`, so the source's
`except subprocess.CalledProcessError` branch is unreachable and has no
counterpart here. -/
inductive CallOutcome where
  | completed (exitCode : Int)
  | osError (msg : String)
  deriving DecidableEq, Repr

/-- What one call of `BlockdiagMagics.run_command` returns and prints. -/
structure RunCmdResult where
  result : Bool
  stdoutLines : List String
  stderrLines : List String
  deriving DecidableEq, Repr

/-- `BlockdiagMagics.run_command(args)`: calls
`subprocess.call(args, stderr=subprocess.STDOUT, startupinfo=...)` and then
returns `True` — the child's exit code is discarded.  Only a spawn failure
(`OSError`) is caught; that branch prints `Exception <e>` to `sys.stdout`
(note: `file=sys.stdout`, not `sys.stderr`) and falls through to
`return False`.  The `startupinfo` handling for Windows only suppresses a
console window and has no observable counterpart here. -/
def run_command (outcome : CallOutcome) : RunCmdResult :=
  match outcome with
  | .completed _ => { result := true, stdoutLines := [], stderrLines := [] }
  | .osError msg =>
      { result := false
        stdoutLines := ["Exception " ++ msg]
        stderrLines := [] }

/-- The module-level mutable globals of `diagmagic.py`:
`_draw_mode`, `_publish_mode` (strings `'PNG'` or `'SVG'`),
`_inkscape_available` (`None` until first probed, then a boolean), and
`_loaded` (whether `load_ipython_extension` already registered the magics). -/
structure PyGlobals where
  draw_mode : String
  publish_mode : String
  inkscape_cache : Option Bool
  loaded : Bool
  deriving DecidableEq, Repr

/-- The initial module state after import:
`_draw_mode = 'PNG'`, `_publish_mode = 'PNG'`, `_inkscape_available = None`,
`_loaded = False`. -/
def initialGlobals : PyGlobals :=
  { draw_mode := "PNG", publish_mode := "PNG",
    inkscape_cache := none, loaded := false }

/-- Result of one call of `BlockdiagMagics.inkscape_available`: the boolean
returned, the new value of the `_inkscape_available` global, and whether the
external probe command was actually run on this call. -/
structure InkscapeCheck where
  result : Bool
  cache : Option Bool
  probeRan : Bool
  deriving DecidableEq, Repr

/-- `BlockdiagMagics.inkscape_available()`: if the global
`_inkscape_available` is `None`, runs
`run_command(['inkscape', '--export-png'])` (whose outcome is `probe`) and
stores the boolean result in the global; otherwise returns the stored value
without running anything. -/
def inkscape_available (cache : Option Bool) (probe : CallOutcome) :
    InkscapeCheck :=
  match cache with
  | some b => { result := b, cache := some b, probeRan := false }
  | none =>
      let r := run_command probe
      { result := r.result, cache := some r.result, probeRan := true }

/-- Externally visible effects that one invocation of the rendering routine
`diag` may perform, in order. -/
inductive Effect where
  /-- `tempfile.mkdtemp()` created the scratch directory. -/
  | mkdtemp (dir : String)
  /-- `tempfile.mkstemp(dir=tmpdir)` created the scratch input file. -/
  | mkstemp (dir : String) (name : String)
  /-- the cell text was written to the scratch input file. -/
  | writeFile (name : String) (contents : String)
  /-- `command.main(argv)` ran the external diagram renderer. -/
  | rendererMain (command : String) (argv : List String)
  /-- `run_command` attempted `subprocess.call(args)`. -/
  | subprocessCall (args : List String)
  /-- the output image file was read back. -/
  | readFile (name : String)
  /-- every file listed in the scratch directory was unlinked. -/
  | unlinkAll (dir : String)
  /-- `os.rmdir` removed the scratch directory. -/
  | rmdir (dir : String)
  /-- `publish_display_data` forwarded a MIME-type/payload mapping to the
  host's display system.  (The source passes the mapping in a different
  positional slot in the SVG and PNG branches; both branches build the
  dictionary mapping exactly one MIME type to the file bytes, which is what
  is recorded here.) -/
  | publish_display_data (mime : String) (payload : List Nat)
  deriving DecidableEq, Repr

/-- How one invocation of a magic ends, as seen by the host process:
it returns normally, it raises a Python exception (which propagates to the
host's cell-execution loop), or the whole process is torn down.  No construct
in the source can produce `crashed`; it exists so that confinement of
failures is a statement, not a tautology of the result type. -/
inductive PyOutcome where
  | completed
  | raised (e : String)
  | crashed
  deriving DecidableEq, Repr

/-- The behaviour of the world outside the module during one `diag`
invocation: the probe outcome used if `_inkscape_available` is still `None`,
the names the tempfile module picks, and for each fallible step either
success (`none` / `Except.ok`) or the Python exception it raises. -/
structure DiagWorld where
  probe : CallOutcome
  tmpdirName : String
  diagName : String
  mkdtempRes : Option String
  mkstempRes : Option String
  writeRes : Option String
  rendererRes : Option String
  svg2pngCall : CallOutcome
  readRes : Except String (List Nat)
  deriving Repr

/-- Result of one `diag` invocation: the updated module globals, the ordered
effect trace, and how the call ended. -/
structure DiagResult where
  globals : PyGlobals
  trace : List Effect
  outcome : PyOutcome
  deriving DecidableEq, Repr

/-- `BlockdiagMagics.svg2png(filename)`: runs
`run_command(['inkscape', filename + '.svg', '--export-png=' + filename + '.png'])`
and ignores its boolean result. -/
def svg2png (filename : String) (call : CallOutcome) :
    RunCmdResult × List Effect :=
  let args := ["inkscape", filename ++ ".svg",
               "--export-png=" ++ filename ++ ".png"]
  (run_command call, [Effect.subprocessCall args])

/-- The value of `_draw_mode` right after the `inkscape_available` check at
the top of `diag`: the source sets the global to `'SVG'` whenever inkscape is
available ("if inkscape is available create SVG for either case"), and leaves
it unchanged otherwise. -/
def drawModeAfterProbe (g : PyGlobals) (w : DiagWorld) : String :=
  if (inkscape_available g.inkscape_cache w.probe).result then "SVG"
  else g.draw_mode

/-- `BlockdiagMagics.diag(line, cell, command)`, the shared rendering
routine.  Faithful to the source:
the cell text gets a trailing newline; `_inkscape_available` is consulted
(possibly probing) and `_draw_mode` is forced to `'SVG'` when inkscape is
available; then a `try` block creates a scratch directory and file, writes
the text, runs `command.main` on the constructed argv (with an extra empty
argument in SVG mode), runs `svg2png` exactly when `_draw_mode == 'SVG'` and
`_publish_mode == 'PNG'`, and reads the output file; the `finally` block
unlinks every file in the scratch directory and removes it; after the
`try`/`finally`, `publish_display_data` forwards the bytes under
`image/svg+xml` or `image/png` according to `_publish_mode`.
If `tempfile.mkdtemp()` itself raises, the `finally` block refers to the
never-bound local `tmpdir` and the call raises `NameError` instead (and no
directory was created).  `line` is accepted and ignored, as in the source. -/
def diag (g : PyGlobals) (w : DiagWorld) (line cell command : String) :
    DiagResult :=
  let _ := line
  let code := cell ++ "\n"
  let chk := inkscape_available g.inkscape_cache w.probe
  let g1 : PyGlobals :=
    { g with inkscape_cache := chk.cache,
             draw_mode := drawModeAfterProbe g w }
  let body : List Effect × PyOutcome :=
    match w.mkdtempRes with
    | some _ => ([], .raised "NameError: name tmpdir is not defined")
    | none =>
      let tmpdir := w.tmpdirName
      let cleanup : List Effect := [.unlinkAll tmpdir, .rmdir tmpdir]
      let tr0 : List Effect := [.mkdtemp tmpdir]
      match w.mkstempRes with
      | some e => (tr0 ++ cleanup, .raised e)
      | none =>
        let diag_name := w.diagName
        let tr1 := tr0 ++ [.mkstemp tmpdir diag_name]
        match w.writeRes with
        | some e => (tr1 ++ cleanup, .raised e)
        | none =>
          let tr2 := tr1 ++ [.writeFile diag_name code]
          let format := g1.draw_mode.toLower
          let draw_name := diag_name ++ "." ++ format
          let argv := [diag_name, "-T", format, "-o", draw_name] ++
                      (if g1.draw_mode == "SVG" then [""] else [])
          match w.rendererRes with
          | some e => (tr2 ++ cleanup, .raised e)
          | none =>
            let tr3 := tr2 ++ [.rendererMain command argv]
            let tr4 :=
              if g1.draw_mode == "SVG" && g1.publish_mode == "PNG" then
                tr3 ++ (svg2png diag_name w.svg2pngCall).2
              else tr3
            let file_name := diag_name ++ "." ++ g1.publish_mode.toLower
            match w.readRes with
            | .error e => (tr4 ++ cleanup, .raised e)
            | .ok data =>
              let tr5 := tr4 ++ [.readFile file_name] ++ cleanup
              if g1.publish_mode == "SVG" then
                (tr5 ++ [.publish_display_data "image/svg+xml" data],
                 .completed)
              else
                (tr5 ++ [.publish_display_data "image/png" data],
                 .completed)
  { globals := g1, trace := body.1, outcome := body.2 }

/-- Cell magic `%%actdiag`: `self.diag(line, cell, actdiag.command)`. -/
def actdiag (g : PyGlobals) (w : DiagWorld) (line cell : String) : DiagResult :=
  diag g w line cell "actdiag"

/-- Cell magic `%%blockdiag`: `self.diag(line, cell, blockdiag.command)`. -/
def blockdiag (g : PyGlobals) (w : DiagWorld) (line cell : String) :
    DiagResult :=
  diag g w line cell "blockdiag"

/-- Cell magic `%%nwdiag`: `self.diag(line, cell, nwdiag.command)`. -/
def nwdiag (g : PyGlobals) (w : DiagWorld) (line cell : String) : DiagResult :=
  diag g w line cell "nwdiag"

/-- Cell magic `%%seqdiag`: `self.diag(line, cell, seqdiag.command)`. -/
def seqdiag (g : PyGlobals) (w : DiagWorld) (line cell : String) : DiagResult :=
  diag g w line cell "seqdiag"

/-- Line/cell magic `%setdiagsvg`: `_draw_mode = _publish_mode = 'SVG'`. -/
def setdiagsvg (g : PyGlobals) : PyGlobals :=
  { g with draw_mode := "SVG", publish_mode := "SVG" }

/-- Line/cell magic `%setdiagpng`: `_draw_mode = _publish_mode = 'PNG'`. -/
def setdiagpng (g : PyGlobals) : PyGlobals :=
  { g with draw_mode := "PNG", publish_mode := "PNG" }

/-- Result of one `load_ipython_extension` call: the new globals and whether
`ip.register_magics(BlockdiagMagics)` was invoked on this call. -/
structure LoadResult where
  globals : PyGlobals
  registered : Bool
  deriving DecidableEq, Repr

/-- `load_ipython_extension(ip)`: registers the magics class and sets
`_loaded = True`, but only when `_loaded` is still `False`. -/
def load_ipython_extension (g : PyGlobals) : LoadResult :=
  if g.loaded then { globals := g, registered := false }
  else { globals := { g with loaded := true }, registered := true }

/-- `n` successive calls of `load_ipython_extension` from state `g`,
returning the final state and how many of the calls registered the class. -/
def loadN : Nat → PyGlobals → PyGlobals × Nat
  | 0, g => (g, 0)
  | n + 1, g =>
      let r := load_ipython_extension g
      let rest := loadN n r.globals
      (rest.1, (if r.registered then 1 else 0) + rest.2)

/-- One operation of the extension, as exposed to the host: registration,
either toggle command, or any of the four renderer cell magics (all of which
delegate to `diag`). -/
inductive Op where
  | loadExt
  | setsvg
  | setpng
  | runDiag (w : DiagWorld) (line cell command : String)
  deriving Repr

/-- State transition of the module globals under one operation. -/
def applyOp (g : PyGlobals) : Op → PyGlobals
  | .loadExt => (load_ipython_extension g).globals
  | .setsvg => setdiagsvg g
  | .setpng => setdiagpng g
  | .runDiag w line cell command => (diag g w line cell command).globals

/-- A format flag is legal when it is one of the two values the toggle
commands can write. -/
def legalMode (m : String) : Prop := m = "PNG" ∨ m = "SVG"

/-- Both process-wide format flags are legal. -/
def legalState (g : PyGlobals) : Prop :=
  legalMode g.draw_mode ∧ legalMode g.publish_mode

instance (m : String) : Decidable (legalMode m) := by
  unfold legalMode; infer_instance

instance (g : PyGlobals) : Decidable (legalState g) := by
  unfold legalState; infer_instance

/-- A fully successful external world for a render: the inkscape probe
spawns and exits 0, every filesystem step succeeds, and the output file
reads back as the two bytes `[137, 80]`. -/
def okWorld : DiagWorld :=
  { probe := .completed 0
    tmpdirName := "/tmp/t"
    diagName := "/tmp/t/d"
    mkdtempRes := none
    mkstempRes := none
    writeRes := none
    rendererRes := none
    svg2pngCall := .completed 0
    readRes := .ok [137, 80] }

/-- The globals produced by `diag` in every branch: the inkscape cache is
updated by the probe, `_draw_mode` is forced to `'SVG'` exactly when inkscape
is available, and nothing else changes. -/
theorem diag_globals_eq (g : PyGlobals) (w : DiagWorld)
    (line cell command : String) :
    (diag g w line cell command).globals =
      { g with
          inkscape_cache := (inkscape_available g.inkscape_cache w.probe).cache,
          draw_mode := drawModeAfterProbe g w } := rfl

/-- C1 (counterexample): with the converter cached as available and the
draw-mode flag at `'PNG'`, one invocation of `diag` changes the draw-mode
flag to `'SVG'`, so `diag` does not leave both flags unchanged. -/
theorem diag_mutates_draw_mode_cex :
    (diag { draw_mode := "PNG", publish_mode := "PNG",
            inkscape_cache := some true, loaded := false }
        okWorld "" "" "blockdiag").globals.draw_mode = "SVG" ∧
    ("SVG" : String) ≠ "PNG" := by
  exact ⟨rfl, by decide⟩

/-- C1 (amended): `diag` leaves the publish-mode flag (and the loaded flag)
unchanged, but it does mutate the draw-mode flag: the flag becomes `'SVG'`
whenever the converter is reported available, and is unchanged otherwise;
the toggle commands remain the only operations writing the publish-mode
flag. -/
theorem diag_flag_frame (g : PyGlobals) (w : DiagWorld)
    (line cell command : String) :
    (diag g w line cell command).globals.publish_mode = g.publish_mode ∧
    (diag g w line cell command).globals.draw_mode =
      (if (inkscape_available g.inkscape_cache w.probe).result then "SVG"
       else g.draw_mode) ∧
    (diag g w line cell command).globals.loaded = g.loaded :=
  ⟨rfl, rfl, rfl⟩

/-- C2 (counterexample): a probe whose subprocess spawns but exits with the
non-success code 1 still records the converter as available: the claim's
"non-zero exit implies recorded unavailable" fails, because
`subprocess.call` does not raise on non-zero exit and `run_command` discards
the exit code. -/
theorem inkscape_probe_nonzero_exit_cex :
    (inkscape_available none (CallOutcome.completed 1)).result = true ∧
    (inkscape_available none (CallOutcome.completed 1)).cache = some true := by
  exact ⟨rfl, rfl⟩

/-- C2 (amended): the converter is detected as available if and only if the
probe subprocess could be spawned at all (no missing-executable `OSError`);
the probe's exit code is ignored, so a probe that runs and exits non-zero is
still recorded as available. -/
theorem inkscape_available_iff_spawned :
    (∀ code : Int,
        (inkscape_available none (CallOutcome.completed code)).result = true) ∧
    (∀ msg : String,
        (inkscape_available none (CallOutcome.osError msg)).result = false) :=
  ⟨fun _ => rfl, fun _ => rfl⟩

/-- C4: the probe runs only on the first call (cache still `None`), which
stores the boolean result; every call that finds a stored boolean returns it
unchanged without running the probe, whether the stored value is `true` or
`false`. -/
theorem inkscape_available_cached :
    (∀ probe : CallOutcome,
        (inkscape_available none probe).probeRan = true ∧
        (inkscape_available none probe).result = (run_command probe).result ∧
        (inkscape_available none probe).cache =
          some (run_command probe).result) ∧
    (∀ (b : Bool) (probe : CallOutcome),
        (inkscape_available (some b) probe).probeRan = false ∧
        (inkscape_available (some b) probe).result = b ∧
        (inkscape_available (some b) probe).cache = some b) :=
  ⟨fun _ => ⟨rfl, rfl, rfl⟩, fun _ _ => ⟨rfl, rfl, rfl⟩⟩

/-- C5: `%setdiagsvg` followed by `%setdiagpng` leaves both format flags at
the raster value `'PNG'`. -/
theorem setdiagsvg_then_setdiagpng (g : PyGlobals) :
    (setdiagpng (setdiagsvg g)).draw_mode = "PNG" ∧
    (setdiagpng (setdiagsvg g)).publish_mode = "PNG" :=
  ⟨rfl, rfl⟩

/-- C6 (counterexample): a subprocess that runs and exits with the non-zero
code 2 is not treated as a failure (`run_command` returns `true`), and the
missing-executable diagnostic is printed to standard output, not standard
error — both contrary to the claim. -/
theorem run_command_error_reporting_cex :
    (run_command (CallOutcome.completed 2)).result = true ∧
    (run_command (CallOutcome.osError "no such file")).stderrLines = [] ∧
    (run_command (CallOutcome.osError "no such file")).stdoutLines ≠ [] := by
  refine ⟨rfl, rfl, ?_⟩
  decide

/-- C6 (amended): only the missing-executable condition is caught, in which
case a diagnostic line is printed to standard output (not standard error)
and `run_command` returns `false` instead of propagating the exception; a
subprocess that spawns but exits non-zero is not detected at all:
`run_command` prints nothing and returns `true`. -/
theorem run_command_error_handling :
    (∀ msg : String,
        (run_command (CallOutcome.osError msg)).result = false ∧
        (run_command (CallOutcome.osError msg)).stdoutLines =
          ["Exception " ++ msg] ∧
        (run_command (CallOutcome.osError msg)).stderrLines = []) ∧
    (∀ code : Int,
        (run_command (CallOutcome.completed code)).result = true ∧
        (run_command (CallOutcome.completed code)).stdoutLines = [] ∧
        (run_command (CallOutcome.completed code)).stderrLines = []) :=
  ⟨fun _ => ⟨rfl, rfl, rfl⟩, fun _ => ⟨rfl, rfl, rfl⟩⟩

/-- Once `_loaded` is `True`, further `load_ipython_extension` calls change
nothing and never register. -/
theorem loadN_of_loaded (n : Nat) (g : PyGlobals) (h : g.loaded = true) :
    loadN n g = (g, 0) := by
  induction n with
  | zero => rfl
  | succ n ih =>
      simp [loadN, load_ipython_extension, h, ih]

/-- C10: loading the extension is idempotent: out of `n` successive calls of
`load_ipython_extension` in one process, exactly `min n 1` invoke
`register_magics` — the first call registers and every later call is a
no-op. -/
theorem load_registers_once (n : Nat) :
    (loadN n initialGlobals).2 = min n 1 := by
  cases n with
  | zero => rfl
  | succ n =>
      have h :
          loadN n
              { draw_mode := "PNG", publish_mode := "PNG",
                inkscape_cache := none, loaded := true } =
            ({ draw_mode := "PNG", publish_mode := "PNG",
               inkscape_cache := none, loaded := true }, 0) :=
        loadN_of_loaded n _ rfl
      simp [loadN, load_ipython_extension, initialGlobals, h]

/-- Every single operation preserves legality of the two format flags. -/
theorem applyOp_preserves_legal (g : PyGlobals) (op : Op)
    (h : legalState g) : legalState (applyOp g op) := by
  cases op with
  | loadExt =>
      show legalState (load_ipython_extension g).globals
      unfold load_ipython_extension
      split
      · exact h
      · exact h
  | setsvg => exact ⟨Or.inr rfl, Or.inr rfl⟩
  | setpng => exact ⟨Or.inl rfl, Or.inl rfl⟩
  | runDiag w line cell command =>
      refine ⟨?_, h.2⟩
      show legalMode (drawModeAfterProbe g w)
      unfold drawModeAfterProbe
      split
      · exact Or.inr rfl
      · exact h.1

/-- C8: starting from the initial module state, after any sequence of
operations (registration, toggle commands, renderer cell magics) each of the
two process-wide format flags is one of the two legal values `'PNG'` and
`'SVG'`. -/
theorem flags_always_legal (ops : List Op) :
    legalState (ops.foldl applyOp initialGlobals) := by
  have key : ∀ (l : List Op) (g : PyGlobals),
      legalState g → legalState (l.foldl applyOp g) := by
    intro l
    induction l with
    | nil => intro g h; exact h
    | cons op l ih =>
        intro g h
        exact ih _ (applyOp_preserves_legal g op h)
  exact key ops initialGlobals ⟨Or.inl rfl, Or.inl rfl⟩

/-- `diag` always returns to its caller with a normal result or a Python
exception; no execution path tears the process down. -/
theorem diag_outcome_not_crashed (g : PyGlobals) (w : DiagWorld)
    (line cell command : String) :
    (diag g w line cell command).outcome ≠ PyOutcome.crashed := by
  obtain ⟨probe, td, dn, mkd, mks, wr, rr, sc, rd⟩ := w
  cases mkd <;> cases mks <;> cases wr <;> cases rr <;> cases rd <;>
    (simp [diag]; all_goals (split <;> simp))

/-- C9: invoking any of the four renderer cell magics on empty input text
cannot tear down the host process: whatever the external world does, the
call either completes or raises a Python exception, which the host's
cell-execution loop confines. -/
theorem empty_cell_no_crash (g : PyGlobals) (w : DiagWorld) (line : String) :
    (actdiag g w line "").outcome ≠ PyOutcome.crashed ∧
    (blockdiag g w line "").outcome ≠ PyOutcome.crashed ∧
    (nwdiag g w line "").outcome ≠ PyOutcome.crashed ∧
    (seqdiag g w line "").outcome ≠ PyOutcome.crashed :=
  ⟨diag_outcome_not_crashed g w line "" "actdiag",
   diag_outcome_not_crashed g w line "" "blockdiag",
   diag_outcome_not_crashed g w line "" "nwdiag",
   diag_outcome_not_crashed g w line "" "seqdiag"⟩

/-- C3: whenever a `diag` invocation created the scratch directory, the same
invocation unlinks the directory's files and removes the directory before
returning — on the success path and on every failure path (renderer
exception, conversion, or output-file read failure alike). -/
theorem diag_tmpdir_removed (g : PyGlobals) (w : DiagWorld)
    (line cell command : String)
    (h : Effect.mkdtemp w.tmpdirName ∈ (diag g w line cell command).trace) :
    Effect.unlinkAll w.tmpdirName ∈ (diag g w line cell command).trace ∧
    Effect.rmdir w.tmpdirName ∈ (diag g w line cell command).trace := by
  obtain ⟨probe, td, dn, mkd, mks, wr, rr, sc, rd⟩ := w
  cases mkd <;> cases mks <;> cases wr <;> cases rr <;> cases rd <;>
    (simp_all [diag, svg2png]; all_goals (split <;> simp))

/-- C3 (witness): in a fully successful render from the initial state, the
scratch directory is created, its files are unlinked and it is removed. -/
theorem diag_tmpdir_removed_witness :
    Effect.unlinkAll "/tmp/t" ∈
      (diag initialGlobals okWorld "" "A -> B" "blockdiag").trace ∧
    Effect.rmdir "/tmp/t" ∈
      (diag initialGlobals okWorld "" "A -> B" "blockdiag").trace :=
  diag_tmpdir_removed initialGlobals okWorld "" "A -> B" "blockdiag"
    (by decide)

/-- C7: provided the scratch setup and the external renderer run without
raising, the `svg2png` conversion subprocess is invoked if and only if the
draw-mode flag (as it stands during the render, after the availability
check) is `'SVG'` while the publish-mode flag is `'PNG'`; and when the
output file is read back, the published payload maps the MIME type matching
the publish mode (`image/svg+xml` for `'SVG'`, `image/png` for `'PNG'`) to
the bytes of the output file. -/
theorem diag_svg2png_and_publish (g : PyGlobals) (w : DiagWorld)
    (line cell command : String)
    (h1 : w.mkdtempRes = none) (h2 : w.mkstempRes = none)
    (h3 : w.writeRes = none) (h4 : w.rendererRes = none) :
    ((Effect.subprocessCall
        ["inkscape", w.diagName ++ ".svg",
         "--export-png=" ++ w.diagName ++ ".png"] ∈
        (diag g w line cell command).trace) ↔
      (drawModeAfterProbe g w = "SVG" ∧ g.publish_mode = "PNG")) ∧
    (∀ data : List Nat, w.readRes = Except.ok data →
      (g.publish_mode = "SVG" →
        Effect.publish_display_data "image/svg+xml" data ∈
          (diag g w line cell command).trace) ∧
      (g.publish_mode = "PNG" →
        Effect.publish_display_data "image/png" data ∈
          (diag g w line cell command).trace)) := by
  obtain ⟨probe, td, dn, mkd, mks, wr, rr, sc, rd⟩ := w
  cases h1; cases h2; cases h3; cases h4
  constructor
  · by_cases hd :
        drawModeAfterProbe g ⟨probe, td, dn, none, none, none, none, sc, rd⟩
          = "SVG" <;>
      by_cases hp : g.publish_mode = "PNG" <;>
      cases rd <;>
      simp_all [diag, svg2png] <;> split <;> simp_all
  · intro data hdata
    cases rd <;> simp_all [diag, svg2png]

/-- C7 (witness): a fully successful render from the initial state (probe
reports the converter available, so the draw mode becomes `'SVG'` while the
publish mode stays `'PNG'`) invokes the conversion subprocess and publishes
the output bytes under `image/png`. -/
theorem diag_svg2png_and_publish_witness :
    (Effect.subprocessCall
        ["inkscape", "/tmp/t/d" ++ ".svg",
         "--export-png=" ++ "/tmp/t/d" ++ ".png"] ∈
        (diag initialGlobals okWorld "" "A -> B" "seqdiag").trace) ∧
    Effect.publish_display_data "image/png" [137, 80] ∈
      (diag initialGlobals okWorld "" "A -> B" "seqdiag").trace := by
  have h := diag_svg2png_and_publish initialGlobals okWorld "" "A -> B"
    "seqdiag" rfl rfl rfl rfl
  exact ⟨h.1.mpr (by decide), (h.2 [137, 80] rfl).2 rfl⟩

end Diagmagic
